import Mathlib

/-!
# A shallow embedding of RAFT.js (the `Raft` frame-rate throttle loop)

This file embeds the `Raft` class of RAFT.js in Lean 4 and proves properties
of its step loop, calibration sub-protocol and cancellation.

Modelling conventions:
* JS numbers are modelled as `ℚ`; `Math.floor` is `jsFloor` (via `Rat.floor`).
* The JS value `Infinity` assigned to `minFps` (and never changed) is modelled
  as the `none` case of an `Option ℚ`; a finite value would be `some q`.
* Absent (`undefined`) options are `none`; the JS `x || d` defaulting idiom,
  which replaces every falsy value (absent, `0`, `false`) by the default, is
  `jsOrNat` / `jsOrRat` / `jsOrInt` / `jsOrNull` below.
* Callbacks are modelled by presence flags plus a per-step `Calls` record
  saying which of `action` / `inaction` / `always` were invoked and with
  which argument quadruple `(frames, fps, avgFps, maxFps)`.
* The pending `setTimeout` / `requestAnimationFrame` entries of the host
  scheduler are modelled as `Option ℕ` handles: `loop` schedules a fresh
  timeout handle, `cancel` deschedules both.
-/

/-- JS `Math.floor` on rationals. -/
def jsFloor (q : ℚ) : ℚ := (⌊q⌋ : ℚ)

/-- JS `n || d` for an optional number option with natural default:
`undefined` and `0` are falsy and yield the default. -/
def jsOrNat (v : Option ℕ) (d : ℕ) : ℕ :=
  match v with
  | none => d
  | some n => if n = 0 then d else n

/-- JS `q || d` for an optional rational option: `undefined` and `0` are
falsy and yield the default. -/
def jsOrRat (v : Option ℚ) (d : ℚ) : ℚ :=
  match v with
  | none => d
  | some q => if q = 0 then d else q

/-- JS `n || d` for an optional integer option: `undefined` and `0` are
falsy and yield the default. -/
def jsOrInt (v : Option ℤ) (d : ℤ) : ℤ :=
  match v with
  | none => d
  | some n => if n = 0 then d else n

/-- JS `q || null`: falsy values collapse to `null` (`none`). -/
def jsOrNull (v : Option ℚ) : Option ℚ :=
  match v with
  | none => none
  | some q => if q = 0 then none else some q

/-- The options object passed to the `Raft` constructor.  Callback options
are modelled by their presence (`typeof options.f === 'function'`);
`useAverage` records the JS truthiness of `options.useAverage`
(`undefined` is falsy, hence `false` here). -/
structure Options where
  useAverage : Bool := false
  fpsBufferLength : Option ℕ := none
  loopTimeout : Option ℚ := none
  targetFps : Option ℚ := none
  calibrationPeriod : Option ℚ := none
  hasInaction : Bool := false
  hasAlways : Bool := false
deriving Repr, DecidableEq

/-- The argument quadruple every callback receives:
`(this.frames_, fps, this.avgFps, this.maxFps)`. -/
structure CbArgs where
  frames : ℕ
  fps : ℚ
  avgFps : ℚ
  maxFps : ℚ
deriving Repr, DecidableEq

/-- Which callbacks a single `loop` iteration invoked, and with which
arguments.  `none` means the callback was not invoked on that step. -/
structure Calls where
  action : Option CbArgs := none
  inaction : Option CbArgs := none
  always : Option CbArgs := none
deriving Repr, DecidableEq

/-- The state of a `Raft` instance: the constructor's closure variables
(`useAverage`, `fpsBufferLength`, `loopTimeout`, `calibrationPeriod`,
`hasInaction`, `hasAlways`, `updatingTargetFps`) together with the
instance fields (`frames_`, `lastTime`, `fps`, `maxFps`, `minFps`,
`avgFps`, `fpsBuffer`, `bufferIndex`, `targetFps`, `frameCount`,
`calibrateTargetBuffer_`, and the pending scheduler handles). -/
structure Raft where
  useAverage : Bool
  fpsBufferLength : ℕ
  loopTimeout : ℚ
  calibrationPeriod : Option ℚ
  hasInaction : Bool
  hasAlways : Bool
  frames : ℕ
  lastTime : ℚ
  fps : Option ℚ
  maxFps : ℚ
  minFps : Option ℚ
  avgFps : Option ℚ
  fpsBuffer : List ℚ
  bufferIndex : ℕ
  updatingTargetFps : Bool
  frameCount : ℤ
  calibrateTargetBuffer : List ℚ
  targetFps : ℚ
  timeout : Option ℕ
  request : Option ℕ
deriving Repr, DecidableEq

namespace Raft

/-- `this.calibrateTargetFps(frameCount)`: reset the calibration buffer,
set the remaining-frames counter (`frameCount || 60`) and enter
calibration mode. -/
def calibrateTargetFps (r : Raft) (fc : Option ℤ := none) : Raft :=
  { r with
    frameCount := jsOrInt fc 60
    calibrateTargetBuffer := []
    updatingTargetFps := true }

/-- The `Raft` constructor's field initializers, given the options object
and the current time (`Date.now()`).  Fills the ring buffer with
`fpsBufferLength` zeros.  When `calibrationPeriod` is truthy the source
constructor then calls `this.calibrateTargetFps()` before that method has
been assigned to the instance, so construction throws a TypeError and no
instance is ever produced on that path; `make` therefore never enters
calibration, and `make?` below is the fallible constructor that models
the throw.  A calibrating instance is reachable only by an explicit
`calibrateTargetFps` call on a constructed instance. -/
def make (o : Options) (now0 : ℚ) : Raft :=
  let len := jsOrNat o.fpsBufferLength 3
  { useAverage := o.useAverage || true
    fpsBufferLength := len
    loopTimeout := jsOrRat o.loopTimeout 0
    calibrationPeriod := jsOrNull o.calibrationPeriod
    hasInaction := o.hasInaction
    hasAlways := o.hasAlways
    frames := 0
    lastTime := now0
    fps := none
    maxFps := 0
    minFps := none
    avgFps := none
    fpsBuffer := List.replicate len 0
    bufferIndex := 0
    updatingTargetFps := false
    frameCount := 0
    calibrateTargetBuffer := []
    targetFps := jsOrRat o.targetFps (121/2)
    timeout := none
    request := none }

/-- The fallible constructor: `none` models the TypeError the source
constructor throws when a truthy `calibrationPeriod` makes it call the
not-yet-assigned `calibrateTargetFps` method. -/
def make? (o : Options) (now0 : ℚ) : Option Raft :=
  match jsOrNull o.calibrationPeriod with
  | some _ => none
  | none => some (make o now0)

/-- The instantaneous FPS a step computes from the new timestamp:
`Math.floor(1000/(time - this.lastTime))`. -/
def instFps (r : Raft) (time : ℚ) : ℚ :=
  jsFloor (1000 / (time - r.lastTime))

/-- `this.updateCalibrationBuffer_(fps)`: append the reading, decrement the
remaining-frames counter, and when it drops below 1 leave calibration mode
and set the new target FPS to the buffer average plus `0.5`. -/
def updateCalibrationBuffer_ (r : Raft) (fps : ℚ) : Raft :=
  let buf := r.calibrateTargetBuffer ++ [fps]
  let fc := r.frameCount - 1
  if fc < 1 then
    { r with
      calibrateTargetBuffer := buf
      frameCount := fc
      updatingTargetFps := false
      targetFps := buf.sum / (buf.length : ℚ) + 1/2 }
  else
    { r with calibrateTargetBuffer := buf, frameCount := fc }

/-- One iteration of `this.loop` at timestamp `time` (the value `this.now()`
returns on this step).  Returns the new state and the record of callbacks
invoked on this step. -/
def loop (r : Raft) (time : ℚ) : Raft × Calls :=
  let frames := r.frames + 1
  let fps := r.instFps time
  let maxFps := if fps > r.maxFps then fps else r.maxFps
  let fpsBuffer := r.fpsBuffer.set r.bufferIndex fps
  let bufferIndex := (r.bufferIndex + 1) % r.fpsBufferLength
  let bufferSum := fpsBuffer.sum
  let avgFps := jsFloor (bufferSum / (r.fpsBufferLength : ℚ))
  let args : CbArgs := ⟨frames, fps, avgFps, maxFps⟩
  let calls : Calls :=
    if !r.updatingTargetFps &&
        ((r.useAverage && decide (bufferSum > r.targetFps * (r.fpsBufferLength : ℚ))) ||
         (!r.useAverage && decide (fps > r.targetFps))) then
      { action := some args, always := if r.hasAlways then some args else none }
    else if r.hasInaction then
      { inaction := some args, always := if r.hasAlways then some args else none }
    else
      { always := if r.hasAlways then some args else none }
  let r' : Raft :=
    { r with
      frames := frames
      lastTime := time
      maxFps := maxFps
      fpsBuffer := fpsBuffer
      bufferIndex := bufferIndex
      avgFps := some avgFps
      timeout := some frames }
  let r'' := if r.updatingTargetFps then r'.updateCalibrationBuffer_ fps else r'
  (r'', calls)

/-- `this.cancel()`: deschedule the pending timeout and the pending
animation-frame request (a no-op on absent handles). -/
def cancel (r : Raft) : Raft :=
  { r with timeout := none, request := none }

/-- Run a sequence of steps at the given timestamps, discarding the
callback records. -/
def run (r : Raft) (times : List ℚ) : Raft :=
  times.foldl (fun s t => (s.loop t).1) r

/-- Derived definition: the ring buffer as it stands right after the write
a step at `time` performs (`this.fpsBuffer[this.bufferIndex] = fps`). -/
def stepBuffer (r : Raft) (time : ℚ) : List ℚ :=
  r.fpsBuffer.set r.bufferIndex (r.instFps time)

/-- Derived definition: the argument quadruple
`(this.frames_, fps, this.avgFps, this.maxFps)` that a step at `time`
passes to whichever callbacks it invokes (all values post-update). -/
def stepArgs (r : Raft) (time : ℚ) : CbArgs :=
  ⟨r.frames + 1, r.instFps time,
   jsFloor ((r.stepBuffer time).sum / (r.fpsBufferLength : ℚ)),
   if r.instFps time > r.maxFps then r.instFps time else r.maxFps⟩

end Raft

/-- An externally observable operation on a `Raft` instance: a loop step at
a timestamp, a cancellation, or an explicit calibration request. -/
inductive Op where
  | step (t : ℚ)
  | cancel
  | calibrate (fc : Option ℤ)
deriving Repr, DecidableEq

/-- Apply one operation to a `Raft` state. -/
def Raft.apply (r : Raft) : Op → Raft
  | .step t => (r.loop t).1
  | .cancel => r.cancel
  | .calibrate fc => r.calibrateTargetFps fc

namespace Raft

/-! ## Field-preservation lemmas -/

lemma update_minFps (r : Raft) (f : ℚ) :
    (r.updateCalibrationBuffer_ f).minFps = r.minFps := by
  simp only [Raft.updateCalibrationBuffer_]
  split <;> rfl

lemma update_maxFps (r : Raft) (f : ℚ) :
    (r.updateCalibrationBuffer_ f).maxFps = r.maxFps := by
  simp only [Raft.updateCalibrationBuffer_]
  split <;> rfl

lemma update_fpsBuffer (r : Raft) (f : ℚ) :
    (r.updateCalibrationBuffer_ f).fpsBuffer = r.fpsBuffer := by
  simp only [Raft.updateCalibrationBuffer_]
  split <;> rfl

lemma update_avgFps (r : Raft) (f : ℚ) :
    (r.updateCalibrationBuffer_ f).avgFps = r.avgFps := by
  simp only [Raft.updateCalibrationBuffer_]
  split <;> rfl

lemma update_fpsBufferLength (r : Raft) (f : ℚ) :
    (r.updateCalibrationBuffer_ f).fpsBufferLength = r.fpsBufferLength := by
  simp only [Raft.updateCalibrationBuffer_]
  split <;> rfl

lemma update_useAverage (r : Raft) (f : ℚ) :
    (r.updateCalibrationBuffer_ f).useAverage = r.useAverage := by
  simp only [Raft.updateCalibrationBuffer_]
  split <;> rfl

/-- The state part of one loop iteration, written out. -/
lemma loop_fst (r : Raft) (t : ℚ) :
    (r.loop t).1 =
      (let r' : Raft :=
        { r with
          frames := r.frames + 1
          lastTime := t
          maxFps := if r.instFps t > r.maxFps then r.instFps t else r.maxFps
          fpsBuffer := r.fpsBuffer.set r.bufferIndex (r.instFps t)
          bufferIndex := (r.bufferIndex + 1) % r.fpsBufferLength
          avgFps := some (jsFloor ((r.fpsBuffer.set r.bufferIndex (r.instFps t)).sum /
            (r.fpsBufferLength : ℚ)))
          timeout := some (r.frames + 1) }
       if r.updatingTargetFps then r'.updateCalibrationBuffer_ (r.instFps t) else r') := rfl

lemma loop_minFps (r : Raft) (t : ℚ) : (r.loop t).1.minFps = r.minFps := by
  rw [loop_fst]
  dsimp only
  split
  · rw [update_minFps]
  · rfl

lemma loop_maxFps (r : Raft) (t : ℚ) :
    (r.loop t).1.maxFps = if r.instFps t > r.maxFps then r.instFps t else r.maxFps := by
  rw [loop_fst]
  dsimp only
  split
  · rw [update_maxFps]
  · rfl

lemma loop_fpsBuffer (r : Raft) (t : ℚ) :
    (r.loop t).1.fpsBuffer = r.fpsBuffer.set r.bufferIndex (r.instFps t) := by
  rw [loop_fst]
  dsimp only
  split
  · rw [update_fpsBuffer]
  · rfl

lemma loop_avgFps (r : Raft) (t : ℚ) :
    (r.loop t).1.avgFps =
      some (jsFloor ((r.fpsBuffer.set r.bufferIndex (r.instFps t)).sum /
        (r.fpsBufferLength : ℚ))) := by
  rw [loop_fst]
  dsimp only
  split
  · rw [update_avgFps]
  · rfl

lemma loop_fpsBufferLength (r : Raft) (t : ℚ) :
    (r.loop t).1.fpsBufferLength = r.fpsBufferLength := by
  rw [loop_fst]
  dsimp only
  split
  · rw [update_fpsBufferLength]
  · rfl

lemma loop_useAverage (r : Raft) (t : ℚ) :
    (r.loop t).1.useAverage = r.useAverage := by
  rw [loop_fst]
  dsimp only
  split
  · rw [update_useAverage]
  · rfl

/-- The callback record of one loop iteration, written out. -/
lemma loop_snd (r : Raft) (t : ℚ) :
    (r.loop t).2 =
      (let fps := r.instFps t
       let buf := r.fpsBuffer.set r.bufferIndex fps
       let args : CbArgs :=
         ⟨r.frames + 1, fps, jsFloor (buf.sum / (r.fpsBufferLength : ℚ)),
          if fps > r.maxFps then fps else r.maxFps⟩
       if !r.updatingTargetFps &&
           ((r.useAverage && decide (buf.sum > r.targetFps * (r.fpsBufferLength : ℚ))) ||
            (!r.useAverage && decide (fps > r.targetFps))) then
         { action := some args, always := if r.hasAlways then some args else none }
       else if r.hasInaction then
         { inaction := some args, always := if r.hasAlways then some args else none }
       else
         { always := if r.hasAlways then some args else none }) := rfl

lemma run_useAverage (r : Raft) (ts : List ℚ) : (r.run ts).useAverage = r.useAverage := by
  induction ts generalizing r with
  | nil => rfl
  | cons t ts ih =>
      show ((r.loop t).1.run ts).useAverage = r.useAverage
      rw [ih, loop_useAverage]

lemma run_append_single (r : Raft) (ts : List ℚ) (t : ℚ) :
    r.run (ts ++ [t]) = ((r.run ts).loop t).1 := by
  simp [Raft.run]

end Raft

namespace Raft

/-- The `action` slot of a step's callback record, characterized. -/
lemma loop_action (r : Raft) (t : ℚ) :
    (r.loop t).2.action =
      if !r.updatingTargetFps &&
          ((r.useAverage && decide ((r.stepBuffer t).sum > r.targetFps * (r.fpsBufferLength : ℚ))) ||
           (!r.useAverage && decide (r.instFps t > r.targetFps))) then
        some (r.stepArgs t)
      else none := by
  rw [loop_snd]
  dsimp only [Raft.stepBuffer, Raft.stepArgs]
  split
  · rfl
  · split <;> rfl

/-- The `inaction` slot of a step's callback record, characterized. -/
lemma loop_inaction (r : Raft) (t : ℚ) :
    (r.loop t).2.inaction =
      if !r.updatingTargetFps &&
          ((r.useAverage && decide ((r.stepBuffer t).sum > r.targetFps * (r.fpsBufferLength : ℚ))) ||
           (!r.useAverage && decide (r.instFps t > r.targetFps))) then
        none
      else if r.hasInaction then some (r.stepArgs t)
      else none := by
  rw [loop_snd]
  dsimp only [Raft.stepBuffer, Raft.stepArgs]
  split
  · rfl
  · split <;> rfl

/-- The `always` slot of a step's callback record, characterized: it is
filled exactly when the `always` callback was provided. -/
lemma loop_always (r : Raft) (t : ℚ) :
    (r.loop t).2.always = if r.hasAlways then some (r.stepArgs t) else none := by
  rw [loop_snd]
  dsimp only [Raft.stepBuffer, Raft.stepArgs]
  split
  · rfl
  · split <;> rfl

lemma make_useAverage (o : Options) (now0 : ℚ) : (Raft.make o now0).useAverage = true := by
  simp [Raft.make]

lemma make_maxFps (o : Options) (now0 : ℚ) : (Raft.make o now0).maxFps = 0 := rfl

lemma make_minFps (o : Options) (now0 : ℚ) : (Raft.make o now0).minFps = none := rfl

lemma make_fpsBuffer_length (o : Options) (now0 : ℚ) :
    (Raft.make o now0).fpsBuffer.length = (Raft.make o now0).fpsBufferLength := by
  simp [Raft.make]

end Raft

namespace Raft

/-- Invariant of arbitrary step sequences: the ring-buffer length and the
configured buffer length never change, and after at least one step the
average FPS field is the floored buffer average. -/
lemma run_invariant (ts : List ℚ) : ∀ r : Raft, r.fpsBuffer.length = r.fpsBufferLength →
    (r.run ts).fpsBufferLength = r.fpsBufferLength ∧
    (r.run ts).fpsBuffer.length = r.fpsBufferLength ∧
    (ts ≠ [] → (r.run ts).avgFps =
      some (jsFloor ((r.run ts).fpsBuffer.sum / (r.fpsBufferLength : ℚ)))) := by
  induction ts with
  | nil =>
      intro r hlen
      exact ⟨rfl, hlen, fun hne => absurd rfl hne⟩
  | cons t ts ih =>
      intro r hlen
      have hstep : r.run (t :: ts) = ((r.loop t).1).run ts := rfl
      have hfl : (r.loop t).1.fpsBufferLength = r.fpsBufferLength := loop_fpsBufferLength r t
      have hlen' : (r.loop t).1.fpsBuffer.length = (r.loop t).1.fpsBufferLength := by
        rw [loop_fpsBuffer, hfl, List.length_set, hlen]
      obtain ⟨h1, h2, h3⟩ := ih (r.loop t).1 hlen'
      rw [hstep]
      refine ⟨by rw [h1, hfl], by rw [h2, hfl], fun _ => ?_⟩
      rcases ts with _ | ⟨t2, ts2⟩
      · simp only [Raft.run, List.foldl_nil]
        rw [loop_avgFps, loop_fpsBuffer]
      · have h3' := h3 (by simp)
        rw [hfl] at h3'
        exact h3'

end Raft

/-- Claim C1 counterexample: with an `inaction` callback provided and
calibration entered by an explicit `calibrateTargetFps` call on a
constructed instance, a step does invoke the `inaction` (onBelowThreshold)
callback, contrary to the claim that neither decision callback fires
during calibration. -/
theorem c1_counterexample :
    ((Raft.make { hasInaction := true, hasAlways := true } 0).calibrateTargetFps
      none).updatingTargetFps = true ∧
    (((Raft.make { hasInaction := true, hasAlways := true } 0).calibrateTargetFps
      none).loop 40).2.inaction = some ⟨1, 25, 8, 25⟩ := by
  refine ⟨rfl, ?_⟩
  norm_num [Raft.make, Raft.loop, Raft.instFps, Raft.calibrateTargetFps, jsFloor, jsOrNull,
    jsOrRat, jsOrNat, jsOrInt, List.replicate, List.set, decide_eq_true_eq]

/-- Claim C1 (amended): during calibration the `action` (onThreshold)
callback is never invoked, but the `inaction` (onBelowThreshold) callback,
when provided, is invoked with the step's four values, and the `always`
(onEachFrame) callback, when provided, is still invoked. -/
theorem c1_calibration_suppresses_action_only (r : Raft) (t : ℚ)
    (h : r.updatingTargetFps = true) :
    (r.loop t).2.action = none ∧
    (r.hasInaction = true → (r.loop t).2.inaction = some (r.stepArgs t)) ∧
    (r.hasAlways = true → (r.loop t).2.always = some (r.stepArgs t)) := by
  rw [Raft.loop_action, Raft.loop_inaction, Raft.loop_always, h]
  exact ⟨by simp, fun hin => by simp [hin], fun ha => by simp [ha]⟩

/-- Witness for C1's amended theorem at a concrete instance put into
calibration by an explicit `calibrateTargetFps` call. -/
theorem c1_witness :
    (((Raft.make { hasInaction := true, hasAlways := true } 0).calibrateTargetFps
      none).loop 40).2.action = none :=
  (c1_calibration_suppresses_action_only
    ((Raft.make { hasInaction := true, hasAlways := true } 0).calibrateTargetFps none)
    40 rfl).1

/-- Claim C2: construction coerces any falsy `useAverage` to `true`, so on
every subsequent step the threshold decision is exactly "buffer sum
exceeds targetFps × bufferLength" (and not an instantaneous comparison). -/
theorem c2_useAverage_coerced_to_true (o : Options) (now t : ℚ) (ts : List ℚ) :
    (Raft.make o now).useAverage = true ∧
    ((((Raft.make o now).run ts).loop t).2.action ≠ none ↔
      ((Raft.make o now).run ts).updatingTargetFps = false ∧
      (((Raft.make o now).run ts).stepBuffer t).sum >
        ((Raft.make o now).run ts).targetFps *
          (((Raft.make o now).run ts).fpsBufferLength : ℚ)) := by
  have hu : ((Raft.make o now).run ts).useAverage = true := by
    rw [Raft.run_useAverage, Raft.make_useAverage]
  refine ⟨Raft.make_useAverage o now, ?_⟩
  rw [Raft.loop_action, hu]
  by_cases hupd : ((Raft.make o now).run ts).updatingTargetFps <;>
    by_cases hsum : (((Raft.make o now).run ts).stepBuffer t).sum >
      ((Raft.make o now).run ts).targetFps *
        (((Raft.make o now).run ts).fpsBufferLength : ℚ) <;>
    simp [hupd, hsum]

/-- Claim C3: with `useAverage` true and calibration inactive, a step
invokes `action` exactly when the buffer sum strictly exceeds
`targetFps × bufferLength` (and then `inaction` stays silent); otherwise
`inaction` is invoked when provided; the invoked callback receives
`(frames, fps, avgFps, maxFps)`. -/
theorem c3_average_threshold_decision (r : Raft) (t : ℚ)
    (hu : r.useAverage = true) (hc : r.updatingTargetFps = false) :
    ((r.stepBuffer t).sum > r.targetFps * (r.fpsBufferLength : ℚ) →
      (r.loop t).2.action = some (r.stepArgs t) ∧ (r.loop t).2.inaction = none) ∧
    (¬ (r.stepBuffer t).sum > r.targetFps * (r.fpsBufferLength : ℚ) →
      (r.loop t).2.action = none ∧
      (r.hasInaction = true → (r.loop t).2.inaction = some (r.stepArgs t)) ∧
      (r.hasInaction = false → (r.loop t).2.inaction = none)) := by
  constructor
  · intro hsum
    rw [Raft.loop_action, Raft.loop_inaction, hu, hc]
    simp [hsum]
  · intro hsum
    rw [Raft.loop_action, Raft.loop_inaction, hu, hc]
    refine ⟨by simp [hsum], fun hin => by simp [hsum, hin], fun hin => by simp [hsum, hin]⟩

/-- Witness for C3 at a concrete instance (first step at 100 fps stays at
or below the default threshold sum, so `inaction` fires). -/
theorem c3_witness :
    ((Raft.make { hasInaction := true } 0).loop 10).2.inaction =
      some ((Raft.make { hasInaction := true } 0).stepArgs 10) :=
  ((c3_average_threshold_decision (Raft.make { hasInaction := true } 0) 10
      rfl rfl).2
    (by norm_num [Raft.make, Raft.stepBuffer, Raft.instFps, jsFloor, jsOrNull, jsOrRat,
      jsOrNat, List.replicate, List.set])).2.1 rfl

/-- Claim C4: on the calibrating step where the remaining-frames counter
reaches zero, calibration turns off and the target FPS becomes the sample
average plus one half; in particular `calibrateTargetFps(2)` followed by
FPS samples 10 (step at 100ms) and 20 (step at 150ms) yields 15.5. -/
theorem c4_calibration_completion (r : Raft) (fps : ℚ) (h : r.frameCount = 1) :
    ((r.updateCalibrationBuffer_ fps).updatingTargetFps = false ∧
     (r.updateCalibrationBuffer_ fps).targetFps =
       (r.calibrateTargetBuffer ++ [fps]).sum /
         ((r.calibrateTargetBuffer ++ [fps]).length : ℚ) + 1/2) ∧
    ((((Raft.make {} 0).calibrateTargetFps (some 2)).run [100, 150]).targetFps = 31/2 ∧
     (((Raft.make {} 0).calibrateTargetFps (some 2)).run [100, 150]).updatingTargetFps
       = false) := by
  have hfc : r.frameCount - 1 < 1 := by rw [h]; norm_num
  refine ⟨⟨?_, ?_⟩, ?_, ?_⟩
  · simp only [Raft.updateCalibrationBuffer_]
    rw [if_pos hfc]
  · simp only [Raft.updateCalibrationBuffer_]
    rw [if_pos hfc]
  · norm_num [Raft.make, Raft.loop, Raft.run, Raft.instFps, Raft.calibrateTargetFps,
      Raft.updateCalibrationBuffer_, jsFloor, jsOrNull, jsOrRat, jsOrNat, jsOrInt,
      List.replicate, List.set, decide_eq_true_eq]
  · norm_num [Raft.make, Raft.loop, Raft.run, Raft.instFps, Raft.calibrateTargetFps,
      Raft.updateCalibrationBuffer_, jsFloor, jsOrNull, jsOrRat, jsOrNat, jsOrInt,
      List.replicate, List.set, decide_eq_true_eq]

/-- Witness for C4 at a concrete state whose counter is 1. -/
theorem c4_witness :
    ((((Raft.make {} 0).calibrateTargetFps (some 1)).updateCalibrationBuffer_ 10
        ).updatingTargetFps = false ∧
     (((Raft.make {} 0).calibrateTargetFps (some 1)).updateCalibrationBuffer_ 10
        ).targetFps =
       ((((Raft.make {} 0).calibrateTargetFps (some 1)).calibrateTargetBuffer
          ++ [10]).sum /
         (((((Raft.make {} 0).calibrateTargetFps (some 1)).calibrateTargetBuffer
          ++ [10]).length : ℕ) : ℚ) + 1/2)) :=
  (c4_calibration_completion ((Raft.make {} 0).calibrateTargetFps (some 1)) 10
    (by norm_num [Raft.make, Raft.calibrateTargetFps, jsOrInt])).1

/-- Claim C5: for every nonempty sequence of step timings the ring buffer
keeps exactly `fpsBufferLength` entries and the average-FPS field equals
the floored buffer average. -/
theorem c5_buffer_and_average_invariant (o : Options) (now : ℚ) (ts : List ℚ)
    (h : ts ≠ []) :
    ((Raft.make o now).run ts).fpsBuffer.length = (Raft.make o now).fpsBufferLength ∧
    ((Raft.make o now).run ts).avgFps =
      some (jsFloor (((Raft.make o now).run ts).fpsBuffer.sum /
        ((Raft.make o now).fpsBufferLength : ℚ))) := by
  obtain ⟨h1, h2, h3⟩ :=
    Raft.run_invariant ts (Raft.make o now) (Raft.make_fpsBuffer_length o now)
  exact ⟨h2, h3 h⟩

/-- Witness for C5 after a single concrete step. -/
theorem c5_witness :
    ((Raft.make {} 0).run [40]).fpsBuffer.length = (Raft.make {} 0).fpsBufferLength ∧
    ((Raft.make {} 0).run [40]).avgFps =
      some (jsFloor (((Raft.make {} 0).run [40]).fpsBuffer.sum /
        ((Raft.make {} 0).fpsBufferLength : ℚ))) :=
  c5_buffer_and_average_invariant {} 0 [40] (by simp)

/-- Claim C6 counterexample: the running max FPS is initialized to `0`, not
to a negative-infinity sentinel: it is not below every attainable sample —
the sample of a 2000ms frame is `0`, which does not exceed it. -/
theorem c6_counterexample :
    (Raft.make {} 0).maxFps = 0 ∧
    ¬ (Raft.make {} 0).maxFps < 0 ∧
    (Raft.make {} 0).instFps 2000 = 0 ∧
    ¬ (Raft.make {} 0).maxFps < (Raft.make {} 0).instFps 2000 := by
  norm_num [Raft.make, Raft.instFps, jsFloor, jsOrNull, jsOrRat, jsOrNat]

/-- Claim C6 (amended): at construction the max FPS is initialized to `0`
(so a first sample becomes the max exactly when strictly positive), and
the min FPS is initialized to the positive-infinity sentinel. -/
theorem c6_max_min_initialization (o : Options) (now t : ℚ)
    (h : 0 < (Raft.make o now).instFps t) :
    (Raft.make o now).maxFps = 0 ∧
    (Raft.make o now).minFps = none ∧
    ((Raft.make o now).loop t).1.maxFps = (Raft.make o now).instFps t := by
  refine ⟨Raft.make_maxFps o now, Raft.make_minFps o now, ?_⟩
  rw [Raft.loop_maxFps, Raft.make_maxFps]
  exact if_pos h

/-- Witness for C6's amended theorem at a concrete first step (25 fps). -/
theorem c6_witness :
    (Raft.make {} 0).maxFps = 0 ∧
    (Raft.make {} 0).minFps = none ∧
    ((Raft.make {} 0).loop 40).1.maxFps = (Raft.make {} 0).instFps 40 :=
  c6_max_min_initialization {} 0 40
    (by norm_num [Raft.make, Raft.instFps, jsFloor, jsOrNull, jsOrRat, jsOrNat])

/-- Claim C7: within one loop instance, the running max FPS after a later
step is at least the max FPS after the earlier step. -/
theorem c7_maxFps_monotone (o : Options) (now : ℚ) (ts : List ℚ) (t : ℚ) :
    ((Raft.make o now).run ts).maxFps ≤ ((Raft.make o now).run (ts ++ [t])).maxFps := by
  rw [Raft.run_append_single, Raft.loop_maxFps]
  split
  · exact le_of_lt (by assumption)
  · exact le_refl _

/-- Claim C8: a loop built with `useAverage := false` and `targetFps := 30`
stepped at 25 fps (40ms frame) invokes `inaction` and not `action`. -/
theorem c8_below_threshold_scenario :
    (Raft.make { useAverage := false, targetFps := some 30, hasInaction := true }
      0).instFps 40 = 25 ∧
    ((Raft.make { useAverage := false, targetFps := some 30, hasInaction := true }
      0).loop 40).2.inaction = some ⟨1, 25, 8, 25⟩ ∧
    ((Raft.make { useAverage := false, targetFps := some 30, hasInaction := true }
      0).loop 40).2.action = none := by
  norm_num [Raft.make, Raft.loop, Raft.instFps, jsFloor, jsOrNull, jsOrRat, jsOrNat,
    List.replicate, List.set, decide_eq_true_eq]

/-- Claim C9: `cancel` is idempotent, is a no-op on a freshly constructed
loop (where nothing is pending), and leaves no scheduled step behind. -/
theorem c9_cancel_idempotent (r : Raft) (o : Options) (now : ℚ) :
    r.cancel.cancel = r.cancel ∧
    (Raft.make o now).cancel = Raft.make o now ∧
    r.cancel.timeout = none ∧ r.cancel.request = none := by
  exact ⟨rfl, rfl, rfl, rfl⟩

/-- Claim C10: the min-FPS field equals the positive-infinity sentinel after
any sequence of steps, cancellations and calibration requests. -/
theorem c10_minFps_never_modified (o : Options) (now : ℚ) (ops : List Op) :
    (ops.foldl Raft.apply (Raft.make o now)).minFps = none := by
  have key : ∀ (l : List Op) (r : Raft), r.minFps = none →
      (l.foldl Raft.apply r).minFps = none := by
    intro l
    induction l with
    | nil => intro r h; exact h
    | cons op l ih =>
        intro r h
        rw [List.foldl_cons]
        refine ih _ ?_
        cases op with
        | step t =>
            show ((r.loop t).1).minFps = none
            rw [Raft.loop_minFps]
            exact h
        | cancel => exact h
        | calibrate fc => exact h
  exact key ops (Raft.make o now) (Raft.make_minFps o now)
